import Mathlib

/-!
Verification development for the `match_ipfs_uploader` service
(`src/main.rs`, `src/ticket.rs`).

The service exposes `POST /upload_match`.  For one request it downloads the
two team logos, composes a 2048 x 1024 ticket image, publishes the image to
IPFS, builds a token JSON document embedding the image gateway URL,
publishes the token, removes the temporary files, and answers with a JSON
envelope carrying the token gateway URL.

The embedding below translates the two Rust source files into Lean.
External collaborators (the HTTP fetcher, the image decoder, the raster
backend of `image_builder`, and the IPFS client) are modelled as oracle
functions supplied to the pipeline; everything the repository itself
computes (hashing, filenames, score and date strings, the token JSON, the
layout arithmetic, the file bookkeeping and the panic behaviour of every
`expect`) is translated directly from the source.
-/

namespace MatchUploader

/-! ### Machine-integer helpers -/

/-- Truncation to 64 bits, the behaviour of `u64` arithmetic. -/
def wrap64 (n : Nat) : Nat := n % 2 ^ 64

/-- Rotate a 64-bit value left by `b` bits (`0 < b < 64`). -/
def rotl64 (x b : Nat) : Nat := (x * 2 ^ b) % 2 ^ 64 + x / 2 ^ (64 - b)

/-- Little-endian bytes of `n`, `k` bytes long (the `to_ne_bytes` encoding
on the x86-64 targets the service runs on). -/
def leBytes : Nat → Nat → List Nat
  | 0, _ => []
  | k + 1, n => n % 256 :: leBytes k (n / 256)

/-- Value of a little-endian byte list (first byte least significant). -/
def leWord (bs : List Nat) : Nat := bs.foldr (fun b acc => b + 256 * acc) 0

/-! ### SipHash-1-3, the algorithm behind `std::collections::hash_map::DefaultHasher`

`calculate_hash` in `ticket.rs` feeds a value through `DefaultHasher`,
which is SipHash-1-3 keyed with `(0, 0)`.  The message is the byte stream
that the `Hash` implementations of the hashed value write. -/

structure SipState where
  v0 : Nat
  v1 : Nat
  v2 : Nat
  v3 : Nat

def sipRound (s : SipState) : SipState :=
  let v0 := wrap64 (s.v0 + s.v1)
  let v1 := rotl64 s.v1 13
  let v1 := Nat.xor v1 v0
  let v0 := rotl64 v0 32
  let v2 := wrap64 (s.v2 + s.v3)
  let v3 := rotl64 s.v3 16
  let v3 := Nat.xor v3 v2
  let v0 := wrap64 (v0 + v3)
  let v3 := rotl64 v3 21
  let v3 := Nat.xor v3 v0
  let v2 := wrap64 (v2 + v1)
  let v1 := rotl64 v1 17
  let v1 := Nat.xor v1 v2
  let v2 := rotl64 v2 32
  ⟨v0, v1, v2, v3⟩

/-- One message word: xor into `v3`, one compression round, xor into `v0`. -/
def sipCompress (s : SipState) (m : Nat) : SipState :=
  let s1 := { s with v3 := Nat.xor s.v3 m }
  let s2 := sipRound s1
  { s2 with v0 := Nat.xor s2.v0 m }

/-- Consume the full 8-byte blocks of the message, returning the state and
the remaining tail bytes. -/
def sipBlocks (s : SipState) : List Nat → SipState × List Nat
  | b0 :: b1 :: b2 :: b3 :: b4 :: b5 :: b6 :: b7 :: rest =>
      sipBlocks (sipCompress s (leWord [b0, b1, b2, b3, b4, b5, b6, b7])) rest
  | rest => (s, rest)

/-- SipHash-1-3 with key `(0, 0)` over a byte list: the value of
`DefaultHasher::finish` after writing exactly these bytes. -/
def sipHash13 (msg : List Nat) : Nat :=
  let s0 : SipState :=
    ⟨0x736f6d6570736575, 0x646f72616e646f6d, 0x6c7967656e657261, 0x7465646279746573⟩
  let sr := sipBlocks s0 msg
  let b := (msg.length % 256) * 2 ^ 56 + leWord sr.2
  let s1 := sipCompress sr.1 b
  let s2 := { s1 with v2 := Nat.xor s1.v2 0xff }
  let s3 := sipRound (sipRound (sipRound s2))
  Nat.xor (Nat.xor s3.v0 s3.v1) (Nat.xor s3.v2 s3.v3)

/-- `fn calculate_hash<T: Hash>(t: &T) -> u64` from `ticket.rs`: the input
is the byte stream written by the `Hash` implementation of `T`. -/
def calculate_hash (hashStream : List Nat) : Nat := sipHash13 hashStream

/-! ### The byte streams written by the `Hash` implementations -/

/-- UTF-8 encoding of a character list. -/
def utf8Chars : List Char → List Nat
  | [] => []
  | c :: cs =>
    let n := c.toNat
    (if n < 0x80 then [n]
     else if n < 0x800 then [0xC0 + n / 64, 0x80 + n % 64]
     else if n < 0x10000 then
       [0xE0 + n / 4096, 0x80 + n / 64 % 64, 0x80 + n % 64]
     else
       [0xF0 + n / 262144, 0x80 + n / 4096 % 64, 0x80 + n / 64 % 64, 0x80 + n % 64])
      ++ utf8Chars cs

/-- UTF-8 bytes of a string. -/
def utf8 (s : String) : List Nat := utf8Chars s.data

/-- Byte stream hashed for a `String`: its UTF-8 bytes followed by the
`0xff` terminator that `str::hash` appends. -/
def strHashStream (s : String) : List Nat := utf8 s ++ [0xff]

/-- Byte stream hashed for a byte buffer (`bytes::Bytes` in
`download_image`, `Vec<u8>` in `make_token`): the length as a
little-endian `usize` prefix, then the bytes themselves. -/
def bytesHashStream (b : List Nat) : List Nat := leBytes 8 b.length ++ b

/-- Byte stream hashed for a `u64` field: eight little-endian bytes. -/
def u64HashStream (n : Nat) : List Nat := leBytes 8 n

/-! ### The chrono date formatting used by `render` and `make_token`

Both methods run
`NaiveDateTime::from_timestamp_opt(self.date as i64, 0)` and format the
resulting UTC datetime with `"%Y-%m-%d %H:%M"`.  The functions below are
the calendar semantics of that call: proleptic Gregorian civil dates from
day numbers (days since 1970-01-01), the chrono representable range, and
the zero-padded rendering of each field. -/

/-- Civil date `(year, month, day)` from a day count relative to the epoch
1970-01-01 (proleptic Gregorian). -/
def civilFromDays (z : Int) : Int × Nat × Nat :=
  let z' := z + 719468
  let era := z'.fdiv 146097
  let doe := (z' - era * 146097).toNat
  let yoe := (doe - doe / 1460 + doe / 36524 - doe / 146096) / 365
  let y := (yoe : Int) + era * 400
  let doy := doe - (365 * yoe + yoe / 4 - yoe / 100)
  let mp := (5 * doy + 2) / 153
  let d := doy - (153 * mp + 2) / 5 + 1
  let m := if mp < 10 then mp + 3 else mp - 9
  (if m ≤ 2 then y + 1 else y, m, d)

/-- Day count relative to 1970-01-01 of a civil date (inverse of
`civilFromDays`). -/
def daysFromCivil (y : Int) (m d : Nat) : Int :=
  let y' := if m ≤ 2 then y - 1 else y
  let era := y'.fdiv 400
  let yoe := (y' - era * 400).toNat
  let doy := (153 * (if m > 2 then m - 3 else m + 9) + 2) / 5 + d - 1
  let doe := yoe * 365 + yoe / 4 - yoe / 100 + doy
  era * 146097 + (doe : Int) - 719468

/-- Smallest second count chrono can represent
(`NaiveDate::MIN` = -262144-01-01, midnight). -/
def chronoMinSecs : Int := daysFromCivil (-262144) 1 1 * 86400

/-- Largest second count chrono can represent
(`NaiveDate::MAX` = 262143-12-31, 23:59:59). -/
def chronoMaxSecs : Int := daysFromCivil 262143 12 31 * 86400 + 86399

/-- Reinterpretation of the `u64` `date` field as an `i64`
(the `self.date as i64` cast). -/
def u64AsI64 (n : Nat) : Int :=
  let m : Nat := n % 2 ^ 64
  if m < 2 ^ 63 then (m : Int) else (m : Int) - 2 ^ 64

/-- Render `n` zero-padded to two digits (the `%m %d %H %M` specifiers). -/
def pad2 (n : Nat) : String :=
  if n < 10 then "0" ++ toString n else toString n

/-- Render `n` zero-padded to four digits. -/
def pad4 (n : Nat) : String :=
  if n < 10 then "000" ++ toString n
  else if n < 100 then "00" ++ toString n
  else if n < 1000 then "0" ++ toString n
  else toString n

/-- The `%Y` specifier: years zero-padded to four digits, an explicit sign
for negative years and for years above 9999. -/
def formatYear (y : Int) : String :=
  if y < 0 then "-" ++ pad4 (-y).toNat
  else if y > 9999 then "+" ++ toString y.toNat
  else pad4 y.toNat

/-- `NaiveDateTime::from_timestamp_opt(date as i64, 0)` followed by
`format("%Y-%m-%d %H:%M")` on the UTC datetime: `none` is chrono
rejecting the timestamp (the `expect` sites turn it into a panic). -/
def chronoFormatUtc (date : Nat) : Option String :=
  let secs := u64AsI64 date
  if secs < chronoMinSecs ∨ chronoMaxSecs < secs then none
  else
    let days := secs.fdiv 86400
    let sod := (secs - days * 86400).toNat
    let c := civilFromDays days
    some (formatYear c.1 ++ "-" ++ pad2 c.2.1 ++ "-" ++ pad2 c.2.2 ++ " "
          ++ pad2 (sod / 3600) ++ ":" ++ pad2 (sod % 3600 / 60))

/-! ### JSON rendering (`serde_json`)

`make_token` serializes a `serde_json::Value` object with `to_vec`; the
response envelopes of `main.rs` are serialized the same way.  The compact
rendering quotes strings with the serde escapes and, for `Value` maps
(backed by `BTreeMap`), emits keys in sorted order. -/

/-- Lowercase hex digit. -/
def hexDigit (n : Nat) : String :=
  if n < 10 then toString n
  else if n = 10 then "a" else if n = 11 then "b" else if n = 12 then "c"
  else if n = 13 then "d" else if n = 14 then "e" else "f"

/-- The serde_json escape of one character: `"` and backslash escaped,
control characters as `\b \t \n \f \r` or `\u00XX`, everything else
verbatim. -/
def escapeJsonChar (c : Char) : String :=
  if c = '"' then "\\\""
  else if c = '\\' then "\\\\"
  else if c.toNat < 0x20 then
    match c.toNat with
    | 8 => "\\b"
    | 9 => "\\t"
    | 10 => "\\n"
    | 12 => "\\f"
    | 13 => "\\r"
    | n => "\\u00" ++ hexDigit (n / 16) ++ hexDigit (n % 16)
  else String.singleton c

/-- serde_json escape of a whole string. -/
def escapeJson (s : String) : String :=
  s.data.foldl (fun acc c => acc ++ escapeJsonChar c) ""

/-- A JSON string literal. -/
def jsonStr (s : String) : String := "\"" ++ escapeJson s ++ "\""

/-- A compact JSON object from rendered key/value pairs. -/
def jsonObj (fields : List (String × String)) : String :=
  "\x7b" ++ String.intercalate "," (fields.map fun f => "\"" ++ f.1 ++ "\":" ++ f.2) ++ "\x7d"

/-! ### The data model of `ticket.rs` -/

/-- `struct Team { name: String, logo_url: String }`. -/
structure Team where
  name : String
  logo_url : String
deriving DecidableEq

/-- `enum TicketStatus`: `Finished { _0: u64, _1: u64 }` or `Active`.
Scores are `u64` values, carried here as `Nat` (every operation applied to
them below agrees with the `u64` one on values below `2 ^ 64`). -/
inductive TicketStatus where
  | Finished (score0 score1 : Nat)
  | Active
deriving DecidableEq

/-- `struct Ticket { id, host_team, guest_team, date: u64, status }`. -/
structure Ticket where
  id : String
  host_team : Team
  guest_team : Team
  date : Nat
  status : TicketStatus
deriving DecidableEq

/-- Byte stream the derived `Hash` of `Team` writes: both strings in
declaration order. -/
def teamHashStream (tm : Team) : List Nat :=
  strHashStream tm.name ++ strHashStream tm.logo_url

/-- Byte stream the derived `Hash` of `TicketStatus` writes: the
discriminant as an eight-byte `isize` (`Finished` is declared first, so it
is `0` and `Active` is `1`), then the `u64` fields of the variant. -/
def statusHashStream : TicketStatus → List Nat
  | .Finished s0 s1 => u64HashStream 0 ++ u64HashStream s0 ++ u64HashStream s1
  | .Active => u64HashStream 1

/-- Byte stream the derived `Hash` of `Ticket` writes: the five fields in
declaration order. -/
def ticketHashStream (t : Ticket) : List Nat :=
  strHashStream t.id ++ teamHashStream t.host_team ++ teamHashStream t.guest_team
    ++ u64HashStream t.date ++ statusHashStream t.status

/-! ### Score and date text

`render` (ticket.rs lines 84-95) and `make_token` (lines 178-189) each
compute the score string and the date string with textually identical
code; both sites are embedded here, one definition per site. -/

/-- The score `match` in `Ticket::render`:
`Finished { _0, _1 } => format!("{} - {}", _0, _1)`, otherwise `"0 - 0"`. -/
def renderScoreText : TicketStatus → String
  | .Finished s0 s1 => toString s0 ++ " - " ++ toString s1
  | .Active => "0 - 0"

/-- The score `match` in `Ticket::make_token`, textually identical to the
one in `render`. -/
def tokenScoreText : TicketStatus → String
  | .Finished s0 s1 => toString s0 ++ " - " ++ toString s1
  | .Active => "0 - 0"

/-! ### Layout constants and the composed canvas (`Ticket::render`) -/

def IMAGE_HEIGHT : Nat := 1024
def IMAGE_WIDTH : Nat := 2048
def IMAGE_MAX_HEIGHT : Nat := 512
def IMAGE_MAX_WIDTH : Nat := 384
def SCORE_FONT_SIZE : Nat := 256
def SCORE_FONT_SIZE_PIXELS : Nat := SCORE_FONT_SIZE / 7
def DATE_FONT_SIZE : Nat := 64

/-- Width and height of a decoded logo (the `RgbaImage` dimensions). -/
structure ImageDims where
  width : Nat
  height : Nat
deriving DecidableEq

/-- One `Picture` added to the canvas: source path, position, and the
resize target handed to `FilterType::Lanczos3`.  Positions are `u32`
expressions in the source; they are carried here as mathematical integers,
so a negative value is exactly a `u32` subtraction that underflowed. -/
structure CanvasPicture where
  path : String
  posX : Int
  posY : Int
  resizeW : Nat
  resizeH : Nat
deriving DecidableEq

/-- One `Text` added to the canvas. -/
structure CanvasText where
  content : String
  size : Nat
  posX : Int
  posY : Int
deriving DecidableEq

/-- Everything `render` hands to the `image_builder` canvas, in the order
the source adds it: home picture, score text, date text, guest picture. -/
structure ComposeSpec where
  width : Nat
  height : Nat
  home : CanvasPicture
  score : CanvasText
  date : CanvasText
  guest : CanvasPicture
deriving DecidableEq

/-- The home-logo picture (ticket.rs lines 101-120): placed at
`(WIDTH / 12, HEIGHT / 2 - h / 2)`, each dimension independently clamped
to the `384 x 512` box. -/
def homePicture (path : String) (dims : ImageDims) : CanvasPicture :=
  { path := path
    posX := (IMAGE_WIDTH / 12 : Nat)
    posY := ((IMAGE_HEIGHT / 2 : Nat) : Int) - ((dims.height / 2 : Nat) : Int)
    resizeW := if dims.width > IMAGE_MAX_WIDTH then IMAGE_MAX_WIDTH else dims.width
    resizeH := if dims.height > IMAGE_MAX_HEIGHT then IMAGE_MAX_HEIGHT else dims.height }

/-- The score text (lines 122-131): positioned at
`(WIDTH / 2 - len * SCORE_FONT_SIZE_PIXELS, HEIGHT / 2 - SCORE_FONT_SIZE)`. -/
def scoreTextElem (score : String) : CanvasText :=
  { content := score
    size := SCORE_FONT_SIZE
    posX := ((IMAGE_WIDTH / 2 : Nat) : Int) - ((score.length * SCORE_FONT_SIZE_PIXELS : Nat) : Int)
    posY := ((IMAGE_HEIGHT / 2 : Nat) : Int) - (SCORE_FONT_SIZE : Int) }

/-- The date text (lines 133-141): positioned at
`(WIDTH / 2 - 200, HEIGHT / 2)`. -/
def dateTextElem (date : String) : CanvasText :=
  { content := date
    size := DATE_FONT_SIZE
    posX := ((IMAGE_WIDTH / 2 : Nat) : Int) - 200
    posY := ((IMAGE_HEIGHT / 2 : Nat) : Int) }

/-- The guest-logo picture (lines 143-162): placed at
`(WIDTH - WIDTH / 12 - w, HEIGHT / 2 - h / 2)` where `w` and `h` are the
original, unclamped dimensions; same resize clamping as the home logo. -/
def guestPicture (path : String) (dims : ImageDims) : CanvasPicture :=
  { path := path
    posX := ((IMAGE_WIDTH : Int) - ((IMAGE_WIDTH / 12 : Nat) : Int)) - (dims.width : Int)
    posY := ((IMAGE_HEIGHT / 2 : Nat) : Int) - ((dims.height / 2 : Nat) : Int)
    resizeW := if dims.width > IMAGE_MAX_WIDTH then IMAGE_MAX_WIDTH else dims.width
    resizeH := if dims.height > IMAGE_MAX_HEIGHT then IMAGE_MAX_HEIGHT else dims.height }

/-- The full canvas content built by `render`. -/
def composeSpec (homePath guestPath : String) (homeDims guestDims : ImageDims)
    (score date : String) : ComposeSpec :=
  { width := IMAGE_WIDTH
    height := IMAGE_HEIGHT
    home := homePicture homePath homeDims
    score := scoreTextElem score
    date := dateTextElem date
    guest := guestPicture guestPath guestDims }

/-! ### The local filesystem

The pipeline works in the process working directory: `fs::write`,
`fs::File::open`, `fs::File::create` and `fs::remove_file` on hash-derived
names.  A `Files` value is the directory content as path/bytes pairs. -/

abbrev Files : Type := List (String × List Nat)

/-- Content stored at `p`, if any. -/
def fsRead : Files → String → Option (List Nat)
  | [], _ => none
  | (q, b) :: fs, p => if q = p then some b else fsRead fs p

/-- Drop every entry stored at `p`. -/
def fsErase : Files → String → Files
  | [], _ => []
  | (q, b) :: fs, p => if q = p then fsErase fs p else (q, b) :: fsErase fs p

/-- `fs::write` / `File::create` + `write_all`: create or overwrite. -/
def fsWrite (fs : Files) (p : String) (b : List Nat) : Files :=
  (p, b) :: fsErase fs p

/-- `fs::remove_file`: `none` when the file does not exist (the `Err` the
source turns into a panic). -/
def fsRemove (fs : Files) (p : String) : Option Files :=
  if (fsRead fs p).isSome then some (fsErase fs p) else none

/-! ### External collaborators and the request pipeline

The fetcher (`reqwest::get` + `bytes()`), the image decoder
(`ImageReader::decode` + `into_rgba8`), the raster backend of
`image_builder::Image::save`, and the IPFS client (`IpfsClient::add`) are
the external collaborators of the spec.  They are modelled as oracles;
`none` is the failure the corresponding `expect` turns into a panic.  The
raster backend is a total deterministic function from the canvas content
to the PNG bytes `save` writes. -/

structure Oracles where
  fetch : String → Option (List Nat)
  decode : List Nat → Option ImageDims
  rasterize : ComposeSpec → List Nat
  publish : List Nat → Option String

/-- Result of running a piece of the pipeline: either a value, or the
message of the `expect`/`unwrap` panic that aborted it. -/
inductive Outcome (α : Type) where
  | ok (value : α)
  | panic (msg : String)
deriving DecidableEq

/-- Whether an outcome is a success. -/
def Outcome.isOk {α : Type} : Outcome α → Bool
  | .ok _ => true
  | .panic _ => false

/-- Observable steps of one request, in execution order. -/
inductive Event where
  | downloadLogo (url path : String)
  | composeImage (path : String)
  | removeFile (path : String)
  | publishImage (bytes : List Nat) (addr : String)
  | buildToken (image_uri path : String)
  | publishToken (addr : String)
deriving DecidableEq

/-- The temporary filename `download_image` derives from the downloaded
bytes: `format!("{}.png", calculate_hash(&body))`. -/
def logoPath (body : List Nat) : String :=
  toString (calculate_hash (bytesHashStream body)) ++ ".png"

/-- The composed-image filename `render` derives from the ticket:
`format!("{}.png", calculate_hash(&self))`. -/
def imageName (t : Ticket) : String :=
  toString (calculate_hash (ticketHashStream t)) ++ ".png"

/-- `async fn download_image(url: &str) -> String` (ticket.rs lines
222-238): GET the url, name the file by hashing the body, write it. -/
def download_image (O : Oracles) (url : String) (fs : Files) :
    Outcome String × Files × List Event :=
  match O.fetch url with
  | none => (.panic "should download an image", fs, [])
  | some body =>
    let tmp_file_name := logoPath body
    (.ok tmp_file_name, fsWrite fs tmp_file_name body, [.downloadLogo url tmp_file_name])

/-- `Ticket::render` (ticket.rs lines 67-175): download both logos, decode
them, build the canvas, save it under the ticket-hash name, remove the two
logo files, return the image filename. -/
def render (O : Oracles) (t : Ticket) (fs : Files) :
    Outcome String × Files × List Event :=
  match download_image O t.host_team.logo_url fs with
  | (.panic m, fs1, ev1) => (.panic m, fs1, ev1)
  | (.ok home_team_logo_file_path, fs1, ev1) =>
  match download_image O t.guest_team.logo_url fs1 with
  | (.panic m, fs2, ev2) => (.panic m, fs2, ev1 ++ ev2)
  | (.ok guest_team_logo_file_path, fs2, ev2) =>
  let ev := ev1 ++ ev2
  match fsRead fs2 home_team_logo_file_path with
  | none => (.panic "should open a home team logo", fs2, ev)
  | some homeBytes =>
  match O.decode homeBytes with
  | none => (.panic "should be valid image", fs2, ev)
  | some home_team_logo =>
  match fsRead fs2 guest_team_logo_file_path with
  | none => (.panic "should open a guest team logo", fs2, ev)
  | some guestBytes =>
  match O.decode guestBytes with
  | none => (.panic "should be valid image", fs2, ev)
  | some guest_team_logo =>
  let score := renderScoreText t.status
  match chronoFormatUtc t.date with
  | none => (.panic "should be valid timestamp", fs2, ev)
  | some date =>
  let spec := composeSpec home_team_logo_file_path guest_team_logo_file_path
      home_team_logo guest_team_logo score date
  let image_name := imageName t
  let fs3 := fsWrite fs2 image_name (O.rasterize spec)
  let ev := ev ++ [.composeImage image_name]
  match fsRemove fs3 home_team_logo_file_path with
  | none => (.panic "should be able to remove a file", fs3, ev)
  | some fs4 =>
  let ev := ev ++ [.removeFile home_team_logo_file_path]
  match fsRemove fs4 guest_team_logo_file_path with
  | none => (.panic "should be able to remove a file", fs4, ev)
  | some fs5 =>
  (.ok image_name, fs5, ev ++ [.removeFile guest_team_logo_file_path])

/-! ### The token document (`Ticket::make_token`) -/

/-- The shape of the `TOKEN_JSON` template after `make_token` fills in its
three string fields; `extLink` and `animationUrl` carry the JSON `null`
of the template as `none`, `traits` its empty array. -/
structure TokenDoc where
  image : String
  name : String
  description : String
  extLink : Option String
  animationUrl : Option String
  traits : List String
deriving DecidableEq

/-- A nullable JSON string value. -/
def jsonOptStr : Option String → String
  | none => "null"
  | some s => jsonStr s

/-- `serde_json::to_vec` of the filled template: a compact object whose
keys appear in the sorted order of the `BTreeMap` behind
`serde_json::Value`. -/
def serializeTokenDoc (d : TokenDoc) : String :=
  jsonObj [("animation_url", jsonOptStr d.animationUrl),
           ("description", jsonStr d.description),
           ("external" ++ "_link", jsonOptStr d.extLink),
           ("image", jsonStr d.image),
           ("name", jsonStr d.name),
           ("traits", "[" ++ String.intercalate "," (d.traits.map jsonStr) ++ "]")]

/-- The description string of `make_token` (ticket.rs lines 191-197). -/
def tokenDescription (t : Ticket) (date score : String) : String :=
  "The match between " ++ t.host_team.name ++ " and " ++ t.guest_team.name
    ++ " took place on " ++ date ++ ". The final score was " ++ score

/-- The token name string of `make_token` (line 199). -/
def tokenNameText (t : Ticket) : String :=
  t.host_team.name ++ " vs " ++ t.guest_team.name ++ " ticket"

/-- The document `make_token` builds from the template for a given image
URI and date string. -/
def makeTokenDoc (t : Ticket) (image_uri date : String) : TokenDoc :=
  { image := image_uri
    name := tokenNameText t
    description := tokenDescription t date (tokenScoreText t.status)
    extLink := none
    animationUrl := none
    traits := [] }

/-- The serialized token bytes for a given image URI and date string. -/
def tokenBytes (t : Ticket) (image_uri date : String) : List Nat :=
  utf8 (serializeTokenDoc (makeTokenDoc t image_uri date))

/-- The token filename: `format!("{}.json", calculate_hash(&token))` where
`token` is the serialized byte vector. -/
def tokenFileName (t : Ticket) (image_uri date : String) : String :=
  toString (calculate_hash (bytesHashStream (tokenBytes t image_uri date))) ++ ".json"

/-- `Ticket::make_token` (ticket.rs lines 177-219): build the document,
serialize it, write it to the hash-derived filename, return the name. -/
def make_token (t : Ticket) (image_uri : String) (fs : Files) :
    Outcome String × Files × List Event :=
  match chronoFormatUtc t.date with
  | none => (.panic "should be valid timestamp", fs, [])
  | some date =>
  let file_name := tokenFileName t image_uri date
  (.ok file_name, fsWrite fs file_name (tokenBytes t image_uri date),
    [.buildToken image_uri file_name])

/-! ### The endpoint handler (`main.rs`) -/

/-- The gateway URL `format!("https://ipfs.io/ipfs/{}", hash)`. -/
def gatewayUri (addr : String) : String := "https://ipfs.io/ipfs/" ++ addr

/-- Serialization of `IpfsResponse::Response { token_uri }`. -/
def responseEnvelope (token_uri : String) : String :=
  jsonObj [("response", jsonObj [("token_uri", jsonStr token_uri)])]

/-- Serialization of `IpfsResponse::Error { msg }`: the envelope the
design mandates for failed requests.  `main.rs` declares the variant but
`upload_match` never constructs it. -/
def errorEnvelope (msg : String) : String :=
  jsonObj [("error", jsonObj [("msg", jsonStr msg)])]

/-- `upload_match` (main.rs lines 31-69): render, publish the image,
remove it, build the token from the image gateway URL, publish the token,
remove it, answer with the response envelope. -/
def upload_match (O : Oracles) (t : Ticket) (fs : Files) :
    Outcome String × Files × List Event :=
  match render O t fs with
  | (.panic m, fs1, ev1) => (.panic m, fs1, ev1)
  | (.ok image_name, fs1, ev1) =>
  match fsRead fs1 image_name with
  | none => (.panic "image should be present", fs1, ev1)
  | some imageBytes =>
  match O.publish imageBytes with
  | none => (.panic "should be able to deploy to aws", fs1, ev1)
  | some addr =>
  let ev := ev1 ++ [.publishImage imageBytes addr]
  match fsRemove fs1 image_name with
  | none => (.panic "should be able to remove a file", fs1, ev)
  | some fs2 =>
  let ev := ev ++ [.removeFile image_name]
  match make_token t (gatewayUri addr) fs2 with
  | (.panic m, fs3, ev2) => (.panic m, fs3, ev ++ ev2)
  | (.ok token_name, fs3, ev2) =>
  let ev := ev ++ ev2
  match fsRead fs3 token_name with
  | none => (.panic "token should be present", fs3, ev)
  | some tokenBs =>
  match O.publish tokenBs with
  | none => (.panic "should be able to deploy to aws", fs3, ev)
  | some addr2 =>
  let ev := ev ++ [.publishToken addr2]
  match fsRemove fs3 token_name with
  | none => (.panic "should be able to remove a file", fs3, ev)
  | some fs4 =>
  (.ok (responseEnvelope (gatewayUri addr2)), fs4, ev ++ [.removeFile token_name])

/-! ### Basic filesystem lemmas -/

theorem fsRead_fsErase (fs : Files) (p q : String) :
    fsRead (fsErase fs p) q = if p = q then none else fsRead fs q := by
  induction fs with
  | nil => by_cases h : p = q <;> simp [fsErase, fsRead, h]
  | cons e fs ih =>
    obtain ⟨r, b⟩ := e
    by_cases hrp : r = p <;> by_cases hpq : p = q <;> by_cases hrq : r = q <;>
      simp_all [fsErase, fsRead]

theorem fsRead_fsWrite (fs : Files) (p q : String) (b : List Nat) :
    fsRead (fsWrite fs p b) q = if p = q then some b else fsRead fs q := by
  by_cases h : p = q <;> simp [fsWrite, fsRead, fsRead_fsErase, h]

theorem fsRemove_eq_some {fs fs' : Files} {p : String} :
    fsRemove fs p = some fs' ↔ (fsRead fs p).isSome = true ∧ fs' = fsErase fs p := by
  unfold fsRemove
  by_cases h : (fsRead fs p).isSome <;> simp [h, eq_comm]

theorem fsRemove_of_read_some {fs : Files} {p : String} {b : List Nat}
    (h : fsRead fs p = some b) : fsRemove fs p = some (fsErase fs p) := by
  unfold fsRemove
  rw [h]
  rfl

theorem fsRemove_of_read_none {fs : Files} {p : String}
    (h : fsRead fs p = none) : fsRemove fs p = none := by
  unfold fsRemove
  rw [h]
  rfl

/-- Case analysis on `download_image`: the fetch either fails, giving the
panic, or returns the body, giving the hash-named write. -/
theorem download_image_cases (O : Oracles) (url : String) (fs : Files) :
    (O.fetch url = none ∧
      download_image O url fs = (.panic "should download an image", fs, [])) ∨
    (∃ b, O.fetch url = some b ∧ download_image O url fs =
      (.ok (logoPath b), fsWrite fs (logoPath b) b, [.downloadLogo url (logoPath b)])) := by
  unfold download_image
  cases h : O.fetch url with
  | none => exact Or.inl ⟨rfl, rfl⟩
  | some b => exact Or.inr ⟨b, rfl, rfl⟩


/-- Full characterization of a successful `render` run. -/
theorem render_ok (O : Oracles) (t : Ticket) (fs₀ fs : Files) (img : String)
    (ev : List Event) (h : render O t fs₀ = (.ok img, fs, ev)) :
    ∃ hb gb hd gd ds,
      O.fetch t.host_team.logo_url = some hb ∧
      O.fetch t.guest_team.logo_url = some gb ∧
      logoPath hb ≠ logoPath gb ∧
      O.decode hb = some hd ∧
      O.decode gb = some gd ∧
      chronoFormatUtc t.date = some ds ∧
      img = imageName t ∧
      ev = [.downloadLogo t.host_team.logo_url (logoPath hb),
            .downloadLogo t.guest_team.logo_url (logoPath gb),
            .composeImage (imageName t),
            .removeFile (logoPath hb),
            .removeFile (logoPath gb)] ∧
      fs = fsErase (fsErase (fsWrite (fsWrite (fsWrite fs₀ (logoPath hb) hb)
              (logoPath gb) gb) (imageName t)
              (O.rasterize (composeSpec (logoPath hb) (logoPath gb) hd gd
                (renderScoreText t.status) ds)))
            (logoPath hb)) (logoPath gb) := by
  unfold render at h
  rcases download_image_cases O t.host_team.logo_url fs₀ with ⟨hfh, hdh⟩ | ⟨hb, hfh, hdh⟩
  · rw [hdh] at h
    exact absurd h (by simp)
  rw [hdh] at h
  dsimp only at h
  rcases download_image_cases O t.guest_team.logo_url (fsWrite fs₀ (logoPath hb) hb) with
    ⟨hfg, hdg⟩ | ⟨gb, hfg, hdg⟩
  · rw [hdg] at h
    exact absurd h (by simp)
  rw [hdg] at h
  dsimp only at h
  by_cases hpq : logoPath hb = logoPath gb
  · -- both logo downloads landed on the same path: the second remove fails,
    -- so render cannot have returned ok
    rw [fsRead_fsWrite, if_pos hpq.symm] at h
    dsimp only at h
    cases hdec : O.decode gb with
    | none =>
      rw [hdec] at h
      exact absurd h (by simp)
    | some gd =>
    rw [hdec] at h
    dsimp only at h
    rw [fsRead_fsWrite, if_pos rfl] at h
    dsimp only at h
    rw [hdec] at h
    dsimp only at h
    cases hdate : chronoFormatUtc t.date with
    | none =>
      rw [hdate] at h
      exact absurd h (by simp)
    | some ds =>
    rw [hdate] at h
    dsimp only at h
    have h1 : ∃ bb, fsRead (fsWrite (fsWrite (fsWrite fs₀ (logoPath hb) hb)
        (logoPath gb) gb) (imageName t)
        (O.rasterize (composeSpec (logoPath hb) (logoPath gb) gd gd
          (renderScoreText t.status) ds))) (logoPath hb) = some bb := by
      rw [fsRead_fsWrite]
      split
      · exact ⟨_, rfl⟩
      · rw [fsRead_fsWrite, if_pos hpq.symm]
        exact ⟨gb, rfl⟩
    obtain ⟨bb, hbb⟩ := h1
    rw [fsRemove_of_read_some hbb] at h
    dsimp only at h
    rw [fsRemove_of_read_none (by rw [fsRead_fsErase, if_pos hpq])] at h
    exact absurd h (by simp)
  · -- the regular path: distinct logo files
    rw [fsRead_fsWrite, if_neg (fun hh => hpq hh.symm)] at h
    rw [fsRead_fsWrite, if_pos rfl] at h
    dsimp only at h
    cases hdecH : O.decode hb with
    | none =>
      rw [hdecH] at h
      exact absurd h (by simp)
    | some hd =>
    rw [hdecH] at h
    dsimp only at h
    rw [fsRead_fsWrite, if_pos rfl] at h
    dsimp only at h
    cases hdecG : O.decode gb with
    | none =>
      rw [hdecG] at h
      exact absurd h (by simp)
    | some gd =>
    rw [hdecG] at h
    dsimp only at h
    cases hdate : chronoFormatUtc t.date with
    | none =>
      rw [hdate] at h
      exact absurd h (by simp)
    | some ds =>
    rw [hdate] at h
    dsimp only at h
    have h1 : ∃ bb, fsRead (fsWrite (fsWrite (fsWrite fs₀ (logoPath hb) hb)
        (logoPath gb) gb) (imageName t)
        (O.rasterize (composeSpec (logoPath hb) (logoPath gb) hd gd
          (renderScoreText t.status) ds))) (logoPath hb) = some bb := by
      rw [fsRead_fsWrite]
      split
      · exact ⟨_, rfl⟩
      · rw [fsRead_fsWrite, if_neg (fun hh => hpq hh.symm), fsRead_fsWrite, if_pos rfl]
        exact ⟨hb, rfl⟩
    obtain ⟨bb, hbb⟩ := h1
    rw [fsRemove_of_read_some hbb] at h
    dsimp only at h
    have h2 : ∃ bb2, fsRead (fsErase (fsWrite (fsWrite (fsWrite fs₀ (logoPath hb) hb)
        (logoPath gb) gb) (imageName t)
        (O.rasterize (composeSpec (logoPath hb) (logoPath gb) hd gd
          (renderScoreText t.status) ds))) (logoPath hb)) (logoPath gb) = some bb2 := by
      rw [fsRead_fsErase, if_neg hpq, fsRead_fsWrite]
      split
      · exact ⟨_, rfl⟩
      · rw [fsRead_fsWrite, if_pos rfl]
        exact ⟨gb, rfl⟩
    obtain ⟨bb2, hbb2⟩ := h2
    rw [fsRemove_of_read_some hbb2] at h
    dsimp only at h
    simp only [Prod.mk.injEq, Outcome.ok.injEq] at h
    obtain ⟨himg, hfs, hev⟩ := h
    refine ⟨hb, gb, hd, gd, ds, hfh, hfg, hpq, hdecH, hdecG, rfl, himg.symm, ?_, hfs.symm⟩
    rw [← hev]
    simp

/-- Equation for `make_token` when the timestamp is interpretable. -/
theorem make_token_eq_of_date {t : Ticket} {ds : String} (uri : String) (fs : Files)
    (h : chronoFormatUtc t.date = some ds) :
    make_token t uri fs =
      (.ok (tokenFileName t uri ds),
       fsWrite fs (tokenFileName t uri ds) (tokenBytes t uri ds),
       [.buildToken uri (tokenFileName t uri ds)]) := by
  unfold make_token
  rw [h]

theorem upload_match_ok (O : Oracles) (t : Ticket) (fs₀ fs : Files) (resp : String)
    (ev : List Event) (h : upload_match O t fs₀ = (.ok resp, fs, ev)) :
    ∃ hb gb hd gd ds addr addr2,
      O.fetch t.host_team.logo_url = some hb ∧
      O.fetch t.guest_team.logo_url = some gb ∧
      O.decode hb = some hd ∧
      O.decode gb = some gd ∧
      chronoFormatUtc t.date = some ds ∧
      logoPath hb ≠ logoPath gb ∧
      imageName t ≠ logoPath hb ∧
      imageName t ≠ logoPath gb ∧
      O.publish (O.rasterize (composeSpec (logoPath hb) (logoPath gb) hd gd
        (renderScoreText t.status) ds)) = some addr ∧
      O.publish (tokenBytes t (gatewayUri addr) ds) = some addr2 ∧
      resp = responseEnvelope (gatewayUri addr2) ∧
      ev = [.downloadLogo t.host_team.logo_url (logoPath hb),
            .downloadLogo t.guest_team.logo_url (logoPath gb),
            .composeImage (imageName t),
            .removeFile (logoPath hb),
            .removeFile (logoPath gb),
            .publishImage (O.rasterize (composeSpec (logoPath hb) (logoPath gb) hd gd
              (renderScoreText t.status) ds)) addr,
            .removeFile (imageName t),
            .buildToken (gatewayUri addr) (tokenFileName t (gatewayUri addr) ds),
            .publishToken addr2,
            .removeFile (tokenFileName t (gatewayUri addr) ds)] ∧
      fsRead fs (logoPath hb) = none ∧
      fsRead fs (logoPath gb) = none ∧
      fsRead fs (imageName t) = none ∧
      fsRead fs (tokenFileName t (gatewayUri addr) ds) = none := by
  unfold upload_match at h
  rcases hrender : render O t fs₀ with ⟨o, fs1, ev1⟩
  cases o with
  | panic m =>
    rw [hrender] at h
    exact absurd h (by simp)
  | ok image_name =>
  rw [hrender] at h
  dsimp only at h
  obtain ⟨hb, gb, hd, gd, ds, hfh, hfg, hpq, hdecH, hdecG, hdate, himg, hev1, hfs1⟩ :=
    render_ok O t fs₀ fs1 image_name ev1 hrender
  subst himg
  subst hev1
  subst hfs1
  by_cases hg1 : logoPath gb = imageName t
  · rw [fsRead_fsErase, if_pos hg1] at h
    exact absurd h (by simp)
  rw [fsRead_fsErase, if_neg hg1] at h
  by_cases hg2 : logoPath hb = imageName t
  · rw [fsRead_fsErase, if_pos hg2] at h
    exact absurd h (by simp)
  rw [fsRead_fsErase, if_neg hg2, fsRead_fsWrite, if_pos rfl] at h
  dsimp only at h
  cases hpub : O.publish (O.rasterize (composeSpec (logoPath hb) (logoPath gb) hd gd
      (renderScoreText t.status) ds)) with
  | none =>
    rw [hpub] at h
    exact absurd h (by simp)
  | some addr =>
  rw [hpub] at h
  dsimp only at h
  rw [fsRemove_of_read_some (b := O.rasterize (composeSpec (logoPath hb) (logoPath gb) hd gd
      (renderScoreText t.status) ds))
      (by rw [fsRead_fsErase, if_neg hg1, fsRead_fsErase, if_neg hg2, fsRead_fsWrite, if_pos rfl])] at h
  dsimp only at h
  rw [make_token_eq_of_date (gatewayUri addr) _ hdate] at h
  dsimp only at h
  rw [fsRead_fsWrite, if_pos rfl] at h
  dsimp only at h
  cases htpub : O.publish (tokenBytes t (gatewayUri addr) ds) with
  | none =>
    rw [htpub] at h
    exact absurd h (by simp)
  | some addr2 =>
  rw [htpub] at h
  dsimp only at h
  rw [fsRemove_of_read_some (by rw [fsRead_fsWrite, if_pos rfl])] at h
  dsimp only at h
  simp only [Prod.mk.injEq, Outcome.ok.injEq] at h
  obtain ⟨hresp, hfs, hev⟩ := h
  refine ⟨hb, gb, hd, gd, ds, addr, addr2, hfh, hfg, hdecH, hdecG, hdate, hpq,
    fun hh => hg2 hh.symm, fun hh => hg1 hh.symm, hpub, htpub, hresp.symm, ?_, ?_, ?_, ?_, ?_⟩
  · rw [← hev]
    simp
  · rw [← hfs]
    simp only [fsRead_fsErase, fsRead_fsWrite]
    split_ifs <;> rfl
  · rw [← hfs]
    simp only [fsRead_fsErase, fsRead_fsWrite]
    split_ifs <;> rfl
  · rw [← hfs]
    simp only [fsRead_fsErase, fsRead_fsWrite]
    split_ifs <;> rfl
  · rw [← hfs]
    simp only [fsRead_fsErase, fsRead_fsWrite]
    split_ifs <;> rfl

/-! ### Concrete fixtures for witnesses and counterexamples -/

/-- A concrete inbound ticket. -/
def ticketA : Ticket :=
  { id := "match-1"
    host_team := { name := "Lions", logo_url := "http://assets/h.png" }
    guest_team := { name := "Bears", logo_url := "http://assets/g.png" }
    date := 1700000000
    status := .Finished 3 1 }

/-- Oracles where every logo fetch fails. -/
def oraclesFetchFail : Oracles :=
  { fetch := fun _ => none
    decode := fun _ => none
    rasterize := fun _ => []
    publish := fun _ => none }

/-- Oracles where the host fetch succeeds and the guest fetch fails. -/
def oraclesGuestFail : Oracles :=
  { fetch := fun url => if url = "http://assets/h.png" then some [1, 2] else none
    decode := fun _ => some ⟨10, 10⟩
    rasterize := fun _ => [7]
    publish := fun _ => none }

/-- Fully working oracles with distinct logo bytes. -/
def oraclesOk : Oracles :=
  { fetch := fun url => if url = "http://assets/h.png" then some [1, 2] else some [3]
    decode := fun _ => some ⟨100, 200⟩
    rasterize := fun _ => [7, 7]
    publish := fun b => some (if b = [7, 7] then "QmImg" else "QmTok") }

/-- Oracles where both logo downloads return the same bytes. -/
def oraclesDup : Oracles :=
  { fetch := fun _ => some [5, 5]
    decode := fun _ => some ⟨64, 64⟩
    rasterize := fun _ => []
    publish := fun _ => some "Qm" }

/-! ### Claim theorems -/

/-- C1: the claim states that every pipeline failure is caught per-request
and answered with the `error` JSON envelope, the process staying alive, and
that a failed logo fetch leaves no local files behind.  The code instead
panics through `expect` at every failure point and never constructs the
error envelope: on a failed host-logo fetch `upload_match` ends in the
panic `should download an image` with no envelope response, and on a
failed guest-logo fetch it panics after the home logo file was already
written, leaving that file on disk. -/
theorem upload_match_panics_not_error_envelope :
    upload_match oraclesFetchFail ticketA [] =
      (.panic "should download an image", [], []) ∧
    (∀ m : String,
      (upload_match oraclesFetchFail ticketA []).1 ≠ .ok (errorEnvelope m)) ∧
    upload_match oraclesGuestFail ticketA [] =
      (.panic "should download an image", [(logoPath [1, 2], [1, 2])],
       [.downloadLogo "http://assets/h.png" (logoPath [1, 2])]) ∧
    fsRead (upload_match oraclesGuestFail ticketA []).2.1 (logoPath [1, 2]) = some [1, 2] := by
  refine ⟨by decide, ?_, by decide, by decide⟩
  intro m hm
  have h1 : (upload_match oraclesFetchFail ticketA []).1 = .panic "should download an image" := by
    decide
  rw [h1] at hm
  exact Outcome.noConfusion hm

/-- C5: both the compositor and the token builder compute the score text
as zero-zero for `Active` and as the two scores joined by a dash for
`Finished`; for `Finished (3, 1)` the text is exactly `3 - 1`. -/
theorem score_text_spec :
    (∀ s0 s1 : Nat,
      renderScoreText (.Finished s0 s1) = toString s0 ++ " - " ++ toString s1 ∧
      tokenScoreText (.Finished s0 s1) = toString s0 ++ " - " ++ toString s1) ∧
    renderScoreText .Active = "0 - 0" ∧
    tokenScoreText .Active = "0 - 0" ∧
    (∀ st : TicketStatus, renderScoreText st = tokenScoreText st) ∧
    renderScoreText (.Finished 3 1) = "3 - 1" ∧
    tokenScoreText (.Finished 3 1) = "3 - 1" := by
  refine ⟨fun s0 s1 => ⟨rfl, rfl⟩, rfl, rfl, fun st => ?_, by decide, by decide⟩
  cases st <;> rfl

/-- C8 counterexample: the claim states the guest logo is right-aligned at
one twelfth of the canvas width from the right edge for every pair of
decoded logos.  For a guest logo of width 400 the source computes the x
position from the unclamped width but draws the clamped 384-wide logo, so
the drawn right edge misses the claimed alignment. -/
theorem logo_layout_counterexample :
    ¬ ((composeSpec "h.png" "g.png" ⟨50, 50⟩ ⟨400, 100⟩ "0 - 0" "d").guest.posX
        + ((composeSpec "h.png" "g.png" ⟨50, 50⟩ ⟨400, 100⟩ "0 - 0" "d").guest.resizeW : Int)
        = (IMAGE_WIDTH : Int) - ((IMAGE_WIDTH / 12 : Nat) : Int)) := by decide

/-- C8 amended: each logo resize target is clamped independently to the
384 x 512 box and never upscales; the home logo x position is one twelfth
of the canvas width; vertical position and the guest x position are
computed from the original, unclamped dimensions, so vertical centering
holds exactly when the height fits the box, and the guest right-edge
alignment holds exactly when the width fits the box. -/
theorem logo_layout_amended (path : String) (d : ImageDims) :
    (homePicture path d).resizeW ≤ IMAGE_MAX_WIDTH ∧
    (homePicture path d).resizeH ≤ IMAGE_MAX_HEIGHT ∧
    (homePicture path d).resizeW ≤ d.width ∧
    (homePicture path d).resizeH ≤ d.height ∧
    (d.width ≤ IMAGE_MAX_WIDTH → (homePicture path d).resizeW = d.width) ∧
    (d.height ≤ IMAGE_MAX_HEIGHT → (homePicture path d).resizeH = d.height) ∧
    (guestPicture path d).resizeW = (homePicture path d).resizeW ∧
    (guestPicture path d).resizeH = (homePicture path d).resizeH ∧
    (homePicture path d).posX = ((IMAGE_WIDTH / 12 : Nat) : Int) ∧
    (homePicture path d).posY
      = ((IMAGE_HEIGHT / 2 : Nat) : Int) - ((d.height / 2 : Nat) : Int) ∧
    (guestPicture path d).posX
      = (IMAGE_WIDTH : Int) - ((IMAGE_WIDTH / 12 : Nat) : Int) - (d.width : Int) ∧
    (guestPicture path d).posY = (homePicture path d).posY ∧
    (d.width ≤ IMAGE_MAX_WIDTH →
      (guestPicture path d).posX + ((guestPicture path d).resizeW : Int)
        = (IMAGE_WIDTH : Int) - ((IMAGE_WIDTH / 12 : Nat) : Int)) ∧
    (d.height ≤ IMAGE_MAX_HEIGHT →
      (homePicture path d).posY + (((homePicture path d).resizeH / 2 : Nat) : Int)
        = ((IMAGE_HEIGHT / 2 : Nat) : Int)) := by
  unfold homePicture guestPicture IMAGE_MAX_WIDTH IMAGE_MAX_HEIGHT IMAGE_WIDTH IMAGE_HEIGHT
  dsimp only
  refine ⟨?_, ?_, ?_, ?_, ?_, ?_, rfl, rfl, rfl, rfl, rfl, rfl, ?_, ?_⟩ <;>
    (split_ifs <;> omega)

/-- C8 witness: the amended layout facts evaluated for a logo that fits
the bounding box. -/
theorem logo_layout_amended_witness :
    (homePicture "h.png" ⟨300, 400⟩).resizeW = 300 ∧
    (guestPicture "g.png" ⟨300, 400⟩).posX + ((guestPicture "g.png" ⟨300, 400⟩).resizeW : Int)
      = (IMAGE_WIDTH : Int) - ((IMAGE_WIDTH / 12 : Nat) : Int) ∧
    (homePicture "h.png" ⟨300, 400⟩).posY + (((homePicture "h.png" ⟨300, 400⟩).resizeH / 2 : Nat) : Int)
      = ((IMAGE_HEIGHT / 2 : Nat) : Int) := by
  obtain ⟨-, -, -, -, h5, -, -, -, -, -, -, -, h13, h14⟩ :=
    logo_layout_amended "h.png" (⟨300, 400⟩ : ImageDims)
  refine ⟨?_, ?_, ?_⟩
  · rw [h5 (by decide)]
  · exact logo_layout_amended "g.png" (⟨300, 400⟩ : ImageDims) |>.2.2.2.2.2.2.2.2.2.2.2.2.1 (by decide)
  · exact h14 (by decide)

/-- C9 counterexample: the claim states the layout subtractions in
`render` never underflow, yet a `Finished` score with two 14-digit
numbers pushes the score text position negative, a logo of height 1100
pushes the vertical position negative, and a guest logo of width 1900
pushes the guest x position negative. -/
theorem layout_sub_underflow_counterexample :
    (scoreTextElem (renderScoreText (.Finished 10000000000000 10000000000000))).posX < 0 ∧
    (homePicture "h.png" ⟨100, 1100⟩).posY < 0 ∧
    (guestPicture "g.png" ⟨1900, 100⟩).posX < 0 := by decide

/-- C9 amended: the three `u32` subtraction families in the layout stay
nonnegative exactly under explicit bounds: score text of at most 28
characters, logo heights at most 1025, guest width at most 1878; the
`Active` score text always satisfies the bound. -/
theorem layout_sub_no_underflow_amended (sc ds p : String) (hd gd : ImageDims)
    (h1 : sc.length ≤ 28) (h2 : hd.height ≤ 1025) (h3 : gd.height ≤ 1025)
    (h4 : gd.width ≤ 1878) :
    0 ≤ (scoreTextElem sc).posX ∧
    0 ≤ (homePicture p hd).posY ∧
    0 ≤ (guestPicture p gd).posY ∧
    0 ≤ (guestPicture p gd).posX ∧
    (renderScoreText .Active).length ≤ 28 ∧
    0 ≤ (scoreTextElem (renderScoreText .Active)).posX ∧
    0 ≤ (dateTextElem ds).posX ∧
    0 ≤ (dateTextElem ds).posY := by
  unfold scoreTextElem homePicture guestPicture dateTextElem
  unfold IMAGE_WIDTH IMAGE_HEIGHT SCORE_FONT_SIZE_PIXELS SCORE_FONT_SIZE
  dsimp only
  refine ⟨?_, ?_, ?_, ?_, by decide, by decide, by decide, by decide⟩ <;> omega

/-- C9 witness: the amended bounds evaluated at a concrete in-range
layout. -/
theorem layout_sub_no_underflow_amended_witness :
    0 ≤ (scoreTextElem "3 - 1").posX ∧ 0 ≤ (homePicture "h.png" (⟨300, 400⟩ : ImageDims)).posY := by
  obtain ⟨g1, g2, -⟩ :=
    layout_sub_no_underflow_amended "3 - 1" "2023-11-14 22:13" "h.png"
      (⟨300, 400⟩ : ImageDims) (⟨300, 400⟩ : ImageDims)
      (by decide) (by decide) (by decide) (by decide)
  exact ⟨g1, g2⟩

/-- C2: in every successfully handled request the token document's
`image` field is the gateway URL built from the address that publishing
this same request's composed image returned, and the image publish (trace
position 5) happens strictly before the token build (trace position 7). -/
theorem token_image_from_fresh_publish (O : Oracles) (t : Ticket) (fs₀ fs : Files)
    (resp : String) (ev : List Event)
    (h : upload_match O t fs₀ = (.ok resp, fs, ev)) :
    ∃ hb gb hd gd ds addr,
      O.fetch t.host_team.logo_url = some hb ∧
      O.fetch t.guest_team.logo_url = some gb ∧
      O.decode hb = some hd ∧
      O.decode gb = some gd ∧
      chronoFormatUtc t.date = some ds ∧
      O.publish (O.rasterize (composeSpec (logoPath hb) (logoPath gb) hd gd
        (renderScoreText t.status) ds)) = some addr ∧
      (makeTokenDoc t (gatewayUri addr) ds).image = gatewayUri addr ∧
      ev[5]? = some (.publishImage (O.rasterize (composeSpec (logoPath hb) (logoPath gb) hd gd
        (renderScoreText t.status) ds)) addr) ∧
      ev[7]? = some (.buildToken (gatewayUri addr) (tokenFileName t (gatewayUri addr) ds)) ∧
      (5 : Nat) < 7 := by
  obtain ⟨hb, gb, hd, gd, ds, addr, addr2, hfh, hfg, hdecH, hdecG, hdate, _, _, _,
    hpub, _, _, hev, _⟩ := upload_match_ok O t fs₀ fs resp ev h
  subst hev
  exact ⟨hb, gb, hd, gd, ds, addr, hfh, hfg, hdecH, hdecG, hdate, hpub, rfl, rfl, rfl,
    by omega⟩

set_option maxRecDepth 4000 in
/-- C2 witness: a concrete successful request. -/
theorem token_image_from_fresh_publish_witness :
    ∃ resp fs ev, upload_match oraclesOk ticketA [] = (.ok resp, fs, ev) ∧
      ∃ hb gb hd gd ds addr,
        oraclesOk.fetch ticketA.host_team.logo_url = some hb ∧
        oraclesOk.fetch ticketA.guest_team.logo_url = some gb ∧
        oraclesOk.decode hb = some hd ∧
        oraclesOk.decode gb = some gd ∧
        chronoFormatUtc ticketA.date = some ds ∧
        oraclesOk.publish (oraclesOk.rasterize (composeSpec (logoPath hb) (logoPath gb) hd gd
          (renderScoreText ticketA.status) ds)) = some addr ∧
        (makeTokenDoc ticketA (gatewayUri addr) ds).image = gatewayUri addr ∧
        ev[5]? = some (.publishImage (oraclesOk.rasterize (composeSpec (logoPath hb)
          (logoPath gb) hd gd (renderScoreText ticketA.status) ds)) addr) ∧
        ev[7]? = some (.buildToken (gatewayUri addr)
          (tokenFileName ticketA (gatewayUri addr) ds)) ∧
        (5 : Nat) < 7 := by
  rcases hEq : upload_match oraclesOk ticketA [] with ⟨o, fs, ev⟩
  cases o with
  | panic m =>
    have hok : (upload_match oraclesOk ticketA []).1.isOk = true := by decide
    rw [hEq] at hok
    exact absurd hok (by simp [Outcome.isOk])
  | ok r =>
    exact ⟨r, fs, ev, rfl, token_image_from_fresh_publish oraclesOk ticketA [] fs r ev hEq⟩

/-- C3: every successfully completed request removed all four temporary
files it wrote.  The trace pins the deletion points: the two logos right
after the compose step, the composed image right after its publish, the
token document right after its publish; none of the four paths is present
in the final filesystem. -/
theorem temp_files_removed_on_success (O : Oracles) (t : Ticket) (fs₀ fs : Files)
    (resp : String) (ev : List Event)
    (h : upload_match O t fs₀ = (.ok resp, fs, ev)) :
    ∃ homeP guestP imgP tokP uri ib a a2,
      ev = [.downloadLogo t.host_team.logo_url homeP,
            .downloadLogo t.guest_team.logo_url guestP,
            .composeImage imgP,
            .removeFile homeP,
            .removeFile guestP,
            .publishImage ib a,
            .removeFile imgP,
            .buildToken uri tokP,
            .publishToken a2,
            .removeFile tokP] ∧
      fsRead fs homeP = none ∧
      fsRead fs guestP = none ∧
      fsRead fs imgP = none ∧
      fsRead fs tokP = none := by
  obtain ⟨hb, gb, hd, gd, ds, addr, addr2, _, _, _, _, _, _, _, _, _, _, _,
    hev, hr1, hr2, hr3, hr4⟩ := upload_match_ok O t fs₀ fs resp ev h
  exact ⟨logoPath hb, logoPath gb, imageName t, tokenFileName t (gatewayUri addr) ds,
    gatewayUri addr,
    O.rasterize (composeSpec (logoPath hb) (logoPath gb) hd gd (renderScoreText t.status) ds),
    addr, addr2, hev, hr1, hr2, hr3, hr4⟩

set_option maxRecDepth 4000 in
/-- C3 witness: the cleanup facts on a concrete successful request. -/
theorem temp_files_removed_on_success_witness :
    ∃ resp fs ev, upload_match oraclesOk ticketA [] = (.ok resp, fs, ev) ∧
      ∃ homeP guestP imgP tokP uri ib a a2,
        ev = [.downloadLogo ticketA.host_team.logo_url homeP,
              .downloadLogo ticketA.guest_team.logo_url guestP,
              .composeImage imgP,
              .removeFile homeP,
              .removeFile guestP,
              .publishImage ib a,
              .removeFile imgP,
              .buildToken uri tokP,
              .publishToken a2,
              .removeFile tokP] ∧
        fsRead fs homeP = none ∧
        fsRead fs guestP = none ∧
        fsRead fs imgP = none ∧
        fsRead fs tokP = none := by
  rcases hEq : upload_match oraclesOk ticketA [] with ⟨o, fs, ev⟩
  cases o with
  | panic m =>
    have hok : (upload_match oraclesOk ticketA []).1.isOk = true := by decide
    rw [hEq] at hok
    exact absurd hok (by simp [Outcome.isOk])
  | ok r =>
    exact ⟨r, fs, ev, rfl, temp_files_removed_on_success oraclesOk ticketA [] fs r ev hEq⟩

/-- C4: for two tickets with identical field content, `make_token`
produces byte-identical documents with the same filename, the compose
step produces the same hash-derived image filename (and, for any raster
backend, identical image bytes), and the filename-hashing function is a
deterministic pure function of its input. -/
theorem build_token_compose_deterministic (t₁ t₂ : Ticket) (uri ds : String) (fs : Files)
    (h1 : t₁.id = t₂.id) (h2 : t₁.host_team = t₂.host_team)
    (h3 : t₁.guest_team = t₂.guest_team) (h4 : t₁.date = t₂.date)
    (h5 : t₁.status = t₂.status) :
    make_token t₁ uri fs = make_token t₂ uri fs ∧
    tokenBytes t₁ uri ds = tokenBytes t₂ uri ds ∧
    tokenFileName t₁ uri ds = tokenFileName t₂ uri ds ∧
    imageName t₁ = imageName t₂ ∧
    (∀ (O : Oracles) (hp gp : String) (hd gd : ImageDims),
      O.rasterize (composeSpec hp gp hd gd (renderScoreText t₁.status) ds)
        = O.rasterize (composeSpec hp gp hd gd (renderScoreText t₂.status) ds)) ∧
    (∀ s₁ s₂ : List Nat, s₁ = s₂ → calculate_hash s₁ = calculate_hash s₂) := by
  obtain ⟨i1, ht1, gt1, d1, st1⟩ := t₁
  obtain ⟨i2, ht2, gt2, d2, st2⟩ := t₂
  dsimp only at h1 h2 h3 h4 h5
  subst h1
  subst h2
  subst h3
  subst h4
  subst h5
  exact ⟨rfl, rfl, rfl, rfl, fun _ _ _ _ _ => rfl, fun _ _ hh => by rw [hh]⟩

/-- C4 witness: the determinism facts instantiated at a concrete ticket
pair with equal fields. -/
theorem build_token_compose_deterministic_witness :
    make_token ticketA "https://ipfs.io/ipfs/Qm1" []
      = make_token ticketA "https://ipfs.io/ipfs/Qm1" [] ∧
    imageName ticketA = imageName ticketA := by
  obtain ⟨g1, -, -, g4, -, -⟩ :=
    build_token_compose_deterministic ticketA ticketA "https://ipfs.io/ipfs/Qm1"
      "2023-11-14 22:13" [] rfl rfl rfl rfl rfl
  exact ⟨g1, g4⟩

/-- C10: the `download_image` filename is a pure function of the
downloaded bytes alone, so two downloads returning identical bytes are
written to the identical path regardless of URL or prior filesystem
state; when both logo downloads of one request return the same bytes,
`render` panics on its second `remove_file`; and a `render` that returns
normally must have obtained two byte bodies mapping to distinct paths. -/
theorem duplicate_logo_path_behaviour :
    (∀ (O₁ O₂ : Oracles) (url₁ url₂ : String) (b : List Nat) (fs₁ fs₂ : Files),
      O₁.fetch url₁ = some b → O₂.fetch url₂ = some b →
      download_image O₁ url₁ fs₁
        = (.ok (logoPath b), fsWrite fs₁ (logoPath b) b, [.downloadLogo url₁ (logoPath b)]) ∧
      download_image O₂ url₂ fs₂
        = (.ok (logoPath b), fsWrite fs₂ (logoPath b) b, [.downloadLogo url₂ (logoPath b)])) ∧
    (∀ (O : Oracles) (t : Ticket) (fs₀ : Files) (b : List Nat) (dims : ImageDims) (ds : String),
      O.fetch t.host_team.logo_url = some b →
      O.fetch t.guest_team.logo_url = some b →
      O.decode b = some dims →
      chronoFormatUtc t.date = some ds →
      (render O t fs₀).1 = .panic "should be able to remove a file") ∧
    (∀ (O : Oracles) (t : Ticket) (fs₀ fs : Files) (img : String) (ev : List Event),
      render O t fs₀ = (.ok img, fs, ev) →
      ∃ hb gb, O.fetch t.host_team.logo_url = some hb ∧
        O.fetch t.guest_team.logo_url = some gb ∧ logoPath hb ≠ logoPath gb) := by
  refine ⟨?_, ?_, ?_⟩
  · intro O₁ O₂ url₁ url₂ b fs₁ fs₂ hf1 hf2
    refine ⟨?_, ?_⟩
    · unfold download_image
      rw [hf1]
    · unfold download_image
      rw [hf2]
  · intro O t fs₀ b dims ds hfh hfg hdec hdate
    unfold render
    unfold download_image
    rw [hfh]
    dsimp only
    rw [hfg]
    dsimp only
    rw [fsRead_fsWrite, if_pos rfl]
    dsimp only
    rw [hdec]
    dsimp only
    rw [hdate]
    dsimp only
    have hsome : ∃ bb, fsRead (fsWrite (fsWrite (fsWrite fs₀ (logoPath b) b) (logoPath b) b)
        (imageName t) (O.rasterize (composeSpec (logoPath b) (logoPath b) dims dims
          (renderScoreText t.status) ds))) (logoPath b) = some bb := by
      rw [fsRead_fsWrite]
      split
      · exact ⟨_, rfl⟩
      · rw [fsRead_fsWrite, if_pos rfl]
        exact ⟨b, rfl⟩
    obtain ⟨bb, hbb⟩ := hsome
    rw [fsRemove_of_read_some hbb]
    dsimp only
    rw [fsRemove_of_read_none (by rw [fsRead_fsErase, if_pos rfl])]
  · intro O t fs₀ fs img ev h
    obtain ⟨hb, gb, hd, gd, ds, hfh, hfg, hpq, _⟩ := render_ok O t fs₀ fs img ev h
    exact ⟨hb, gb, hfh, hfg, hpq⟩

set_option maxRecDepth 4000 in
/-- C10 witness: the three behaviours at concrete inputs: a concrete
download, a concrete duplicate-bytes request that panics on the second
delete, and a concrete normal render with distinct paths. -/
theorem duplicate_logo_path_behaviour_witness :
    download_image oraclesDup "u" []
      = (.ok (logoPath [5, 5]), fsWrite [] (logoPath [5, 5]) [5, 5],
         [.downloadLogo "u" (logoPath [5, 5])]) ∧
    (render oraclesDup ticketA []).1 = .panic "should be able to remove a file" ∧
    (∃ hb gb, oraclesOk.fetch ticketA.host_team.logo_url = some hb ∧
      oraclesOk.fetch ticketA.guest_team.logo_url = some gb ∧
      logoPath hb ≠ logoPath gb) := by
  refine ⟨(duplicate_logo_path_behaviour.1 oraclesDup oraclesDup "u" "u" [5, 5] [] []
      (by decide) (by decide)).1,
    duplicate_logo_path_behaviour.2.1 oraclesDup ticketA [] [5, 5]
      (⟨64, 64⟩ : ImageDims) "2023-11-14 22:13" (by decide) (by decide) (by decide) (by decide),
    ?_⟩
  rcases hEq : render oraclesOk ticketA [] with ⟨o, fs, ev⟩
  cases o with
  | panic m =>
    have hok : (render oraclesOk ticketA []).1.isOk = true := by decide
    rw [hEq] at hok
    exact absurd hok (by simp [Outcome.isOk])
  | ok r =>
    exact duplicate_logo_path_behaviour.2.2 oraclesOk ticketA [] fs r ev hEq

/-- Bounds on the month and day produced by `civilFromDays`: the month is
at least 1 and the day of month lies in 1..31. -/
theorem civilFromDays_bounds (z : Int) :
    1 ≤ (civilFromDays z).2.1 ∧ 1 ≤ (civilFromDays z).2.2 ∧ (civilFromDays z).2.2 ≤ 31 := by
  unfold civilFromDays
  dsimp only
  refine ⟨?_, ?_, ?_⟩
  · split <;> omega
  · omega
  · omega

/-- C7: for every ticket, image address and interpretable date,
`make_token` builds the fixed-shape document: `image` is the given
address, `name` is host `vs` guest plus `ticket`, `description` is the
fixed sentence with date and score, `external_link` and `animation_url`
stay null, `traits` stays empty, and the serialization carries exactly
those six keys. -/
theorem token_document_shape (t : Ticket) (uri : String) (fs : Files) (ds : String)
    (h : chronoFormatUtc t.date = some ds) :
    make_token t uri fs =
      (.ok (tokenFileName t uri ds),
       fsWrite fs (tokenFileName t uri ds) (tokenBytes t uri ds),
       [.buildToken uri (tokenFileName t uri ds)]) ∧
    (makeTokenDoc t uri ds).image = uri ∧
    (makeTokenDoc t uri ds).name
      = t.host_team.name ++ " vs " ++ t.guest_team.name ++ " ticket" ∧
    (makeTokenDoc t uri ds).description
      = "The match between " ++ t.host_team.name ++ " and " ++ t.guest_team.name
        ++ " took place on " ++ ds ++ ". The final score was " ++ tokenScoreText t.status ∧
    (makeTokenDoc t uri ds).extLink = none ∧
    (makeTokenDoc t uri ds).animationUrl = none ∧
    (makeTokenDoc t uri ds).traits = [] ∧
    serializeTokenDoc (makeTokenDoc t uri ds)
      = jsonObj [("animation_url", "null"),
                 ("description", jsonStr ((makeTokenDoc t uri ds).description)),
                 ("external_link", "null"),
                 ("image", jsonStr uri),
                 ("name", jsonStr ((makeTokenDoc t uri ds).name)),
                 ("traits", "[]")] := by
  exact ⟨make_token_eq_of_date uri fs h, rfl, rfl, rfl, rfl, rfl, rfl, rfl⟩

/-- C7 witness: the document shape evaluated for a concrete ticket. -/
theorem token_document_shape_witness :
    (makeTokenDoc ticketA "https://ipfs.io/ipfs/QmX" "2023-11-14 22:13").image
      = "https://ipfs.io/ipfs/QmX" ∧
    (makeTokenDoc ticketA "https://ipfs.io/ipfs/QmX" "2023-11-14 22:13").name
      = "Lions vs Bears ticket" ∧
    (makeTokenDoc ticketA "https://ipfs.io/ipfs/QmX" "2023-11-14 22:13").extLink = none := by
  obtain ⟨-, g2, g3, -, g5, -, -, -⟩ :=
    token_document_shape ticketA "https://ipfs.io/ipfs/QmX" [] "2023-11-14 22:13" (by decide)
  exact ⟨g2, by rw [g3]; decide, g5⟩

/-- C6: the date string both the compositor and the token builder use
comes from a single formatter; for every timestamp that formatter accepts
it emits the year, zero-padded month, day (in 1..31), hour (at most 23)
and minute (at most 59) in the `%Y-%m-%d %H:%M` layout, and for the Unix
timestamp 1700000000 it emits exactly `2023-11-14 22:13`. -/
theorem date_format_spec :
    (∀ d : Nat, (chronoFormatUtc d).isSome = true →
      ∃ y m da hh mi,
        1 ≤ m ∧ 1 ≤ da ∧ da ≤ 31 ∧ hh ≤ 23 ∧ mi ≤ 59 ∧
        chronoFormatUtc d = some (formatYear y ++ "-" ++ pad2 m ++ "-" ++ pad2 da ++ " "
          ++ pad2 hh ++ ":" ++ pad2 mi)) ∧
    chronoFormatUtc 1700000000 = some "2023-11-14 22:13" ∧
    (∀ (t : Ticket) (uri : String) (fs : Files) (ds : String),
      chronoFormatUtc t.date = some ds →
      make_token t uri fs
        = (.ok (tokenFileName t uri ds),
           fsWrite fs (tokenFileName t uri ds) (tokenBytes t uri ds),
           [.buildToken uri (tokenFileName t uri ds)])) ∧
    (∀ (hp gp : String) (hd gd : ImageDims) (sc ds : String),
      (composeSpec hp gp hd gd sc ds).date.content = ds) := by
  refine ⟨?_, by decide, fun t uri fs ds h => make_token_eq_of_date uri fs h,
    fun _ _ _ _ _ _ => rfl⟩
  intro d h
  unfold chronoFormatUtc at h ⊢
  by_cases hr : u64AsI64 d < chronoMinSecs ∨ chronoMaxSecs < u64AsI64 d
  · rw [if_pos hr] at h
    simp at h
  · rw [if_neg hr]
    dsimp only
    have hsod : 0 ≤ u64AsI64 d - (u64AsI64 d).fdiv 86400 * 86400 ∧
        u64AsI64 d - (u64AsI64 d).fdiv 86400 * 86400 < 86400 := by
      have h0 := Int.fmod_add_fdiv (u64AsI64 d) 86400
      have h1 : 0 ≤ (u64AsI64 d).fmod 86400 := Int.fmod_nonneg' (u64AsI64 d) (by norm_num)
      have h2 : (u64AsI64 d).fmod 86400 < 86400 := Int.fmod_lt_of_pos (u64AsI64 d) (by norm_num)
      omega
    refine ⟨(civilFromDays ((u64AsI64 d).fdiv 86400)).1,
      (civilFromDays ((u64AsI64 d).fdiv 86400)).2.1,
      (civilFromDays ((u64AsI64 d).fdiv 86400)).2.2,
      (u64AsI64 d - (u64AsI64 d).fdiv 86400 * 86400).toNat / 3600,
      (u64AsI64 d - (u64AsI64 d).fdiv 86400 * 86400).toNat % 3600 / 60,
      (civilFromDays_bounds _).1, (civilFromDays_bounds _).2.1,
      (civilFromDays_bounds _).2.2, ?_, ?_, rfl⟩
    · omega
    · omega

/-- C6 witness: the format facts at the claimed concrete timestamp. -/
theorem date_format_spec_witness :
    ∃ y m da hh mi,
      1 ≤ m ∧ 1 ≤ da ∧ da ≤ 31 ∧ hh ≤ 23 ∧ mi ≤ 59 ∧
      chronoFormatUtc 1700000000 = some (formatYear y ++ "-" ++ pad2 m ++ "-" ++ pad2 da
        ++ " " ++ pad2 hh ++ ":" ++ pad2 mi) :=
  date_format_spec.1 1700000000 (by decide)

end MatchUploader
